import Mathlib

/-!
# ds-lab2 gateway: remote clients and response assembly

A shallow embedding of the three HTTP clients of the gateway
(`internal/car/api`, `internal/payment/api`, `internal/rental/api`) and of the
page assembler of `internal/gateway/dto.go`, followed by the properties the
specification states about them.

Conventions of the embedding:

* a Go `error` is an `Error` carrying its message, and a possibly-nil error is
  an `Option Error` (`none` is `nil`);
* the three fallible I/O steps every client performs in sequence
  (`http.NewRequestWithContext`, `http.DefaultClient.Do`, `io.ReadAll`) are one
  `Transport`: a function from the request the client builds to either the
  error of the first failing step or the received status code and body.  Each
  client returns the same zero-valued tuple at each of the three failure
  points, so one `Except.error` branch stands for all three;
* a Go runtime panic is `none` of an `Option` result.
-/

namespace DsLab2

/-! ## Go values -/

/-- Go `error` value, observed through its message. -/
structure Error where
  msg : String
deriving DecidableEq, Repr

/-- Go `errors.New`. -/
def errors.New (text : String) : Error := ⟨text⟩

/-- Go `time.Time`, kept abstract as a count of ticks; the zero value is tick 0. -/
structure Time where
  ticks : Int
deriving DecidableEq, Repr

/-- Go `fmt.Sprint` on a status; `models.PaymentStatus` and
`models.RentalStatus` are represented by the token they print as. -/
def fmt.Sprint (status : String) : String := status

@[reducible] def http.StatusOK : Nat := 200
@[reducible] def http.StatusForbidden : Nat := 403
@[reducible] def http.StatusNotFound : Nat := 404
@[reducible] def http.StatusLocked : Nat := 423

/-! ## `internal/models` -/

/-- Modelled from the spec: the declaration of `models.Car` is not among the
sources; the fields are those `dto.go` reads and section 3 of the
specification lists. -/
structure Car where
  CarUID : String
  Brand : String
  Model : String
  RegistrationNumber : String
  Power : Nat
  Price : Nat
  Typ : String
  Availability : Bool
deriving DecidableEq, Repr

/-- Modelled from the spec: the declaration of `models.Payment` is not among
the sources; the fields are those `dto.go` reads. -/
structure Payment where
  PaymentUID : String
  Status : String
  Price : Nat
deriving DecidableEq, Repr

/-- Modelled from the spec: the declaration of `models.Rental` is not among the
sources; `RentalUID`, `Status`, `CarUID`, `DateFrom`, `DateTo` are read by
`dto.go`, the owning user and the linked payment come from section 3 of the
specification. -/
structure Rental where
  RentalUID : String
  Username : String
  PaymentUID : String
  CarUID : String
  DateFrom : Time
  DateTo : Time
  Status : String
deriving DecidableEq, Repr

/-- Modelled from the spec: the declaration of `models.RentalProperties` is not
among the sources; the fields are the arguments of `createRental` in section
4.3 of the specification together with the owning user. -/
structure RentalProperties where
  Username : String
  PaymentUID : String
  CarUID : String
  DateFrom : Time
  DateTo : Time
deriving DecidableEq, Repr

/-- Go zero value `models.Car{}`. -/
def Car.zero : Car := ⟨"", "", "", "", 0, 0, "", false⟩

/-- Go zero value `models.Payment{}`. -/
def Payment.zero : Payment := ⟨"", "", 0⟩

/-- Go zero value `models.Rental{}`. -/
def Rental.zero : Rental := ⟨"", "", "", "", ⟨0⟩, ⟨0⟩, ""⟩

/-! ## HTTP exchange -/

/-- Arguments of `http.NewRequestWithContext` plus the headers set on the
request afterwards. -/
structure Request where
  Method : String
  URL : String
  Header : List (String × String)
  Body : Option String
deriving DecidableEq, Repr

/-- Status code of the response (`net/http` accepts no negative code) and the
bytes `io.ReadAll` returned. -/
structure Response where
  StatusCode : Nat
  Body : String
deriving DecidableEq, Repr

/-- Build the request, send it, read the body: the error of the first failing
step, or the response. -/
abbrev Transport := Request → Except Error Response

/-! ## JSON decoding (`internal/*/delivery`, not among the sources) -/

/-- The `delivery.CarDTO` type with `json.Unmarshal` into it and its
`ToModel`. -/
structure CarCodec where
  DTO : Type
  unmarshal : String → Except Error DTO
  toModel : DTO → Car

/-- The `delivery.PaymentDTO` type with `json.Unmarshal` into it and its
`ToModel`. -/
structure PaymentCodec where
  DTO : Type
  unmarshal : String → Except Error DTO
  toModel : DTO → Payment

/-- The `delivery.RentalDTO` type with `json.Unmarshal` into it, its fallible
`ToModel`, and `json.Marshal` of `delivery.NewRentalPropertiesDTO`. -/
structure RentalCodec where
  DTO : Type
  unmarshal : String → Except Error DTO
  toModel : DTO → Except Error Rental
  marshalProperties : RentalProperties → Except Error String

/-! ## `internal/car/api` -/

/-- The `CarsAPI` client; its `client` and `logger` fields are read by none of
the methods embedded here (each sends through `http.DefaultClient`). -/
structure CarsAPI where
  baseURL : String
deriving DecidableEq, Repr

/-- Named results `(res, found, err)` of `GetCar`. -/
structure GetCarResult where
  res : Car
  found : Bool
  err : Option Error
deriving DecidableEq, Repr

/-- Named results `(res, found, success, err)` of `LockCar`. -/
structure LockCarResult where
  res : Car
  found : Bool
  success : Bool
  err : Option Error
deriving DecidableEq, Repr

/-- Request of `GetCar`: `GET baseURL/api/v1/cars/{carUID}`. -/
def CarsAPI.getCarRequest (api : CarsAPI) (carUID : String) : Request :=
  { Method := "GET", URL := api.baseURL ++ "/api/v1/cars/" ++ carUID, Header := [], Body := none }

/-- Request of `LockCar`: `POST baseURL/api/v1/cars/{carUID}/lock`. -/
def CarsAPI.lockCarRequest (api : CarsAPI) (carUID : String) : Request :=
  { Method := "POST", URL := api.baseURL ++ "/api/v1/cars/" ++ carUID ++ "/lock",
    Header := [], Body := none }

/-- Request of `UnlockCar`: `DELETE baseURL/api/v1/cars/{carUID}/lock`. -/
def CarsAPI.unlockCarRequest (api : CarsAPI) (carUID : String) : Request :=
  { Method := "DELETE", URL := api.baseURL ++ "/api/v1/cars/" ++ carUID ++ "/lock",
    Header := [], Body := none }

def CarsAPI.GetCar (api : CarsAPI) (codec : CarCodec) (send : Transport) (carUID : String) :
    GetCarResult :=
  match send (api.getCarRequest carUID) with
  | .error err => ⟨Car.zero, false, some err⟩
  | .ok resp =>
    if resp.StatusCode = http.StatusNotFound then
      ⟨Car.zero, false, none⟩
    else if resp.StatusCode ≠ http.StatusOK then
      ⟨Car.zero, false, some (errors.New resp.Body)⟩
    else
      match codec.unmarshal resp.Body with
      | .error err => ⟨Car.zero, false, some err⟩
      | .ok car => ⟨codec.toModel car, true, none⟩

def CarsAPI.LockCar (api : CarsAPI) (codec : CarCodec) (send : Transport) (carUID : String) :
    LockCarResult :=
  match send (api.lockCarRequest carUID) with
  | .error err => ⟨Car.zero, false, false, some err⟩
  | .ok resp =>
    if resp.StatusCode = http.StatusNotFound then
      ⟨Car.zero, false, false, none⟩
    else if resp.StatusCode = http.StatusLocked then
      ⟨Car.zero, true, false, none⟩
    else if resp.StatusCode ≠ http.StatusOK then
      ⟨Car.zero, false, false, some (errors.New resp.Body)⟩
    else
      match codec.unmarshal resp.Body with
      | .error err => ⟨Car.zero, false, false, some err⟩
      | .ok car => ⟨codec.toModel car, true, true, none⟩

def CarsAPI.UnlockCar (api : CarsAPI) (send : Transport) (carUID : String) : Option Error :=
  match send (api.unlockCarRequest carUID) with
  | .error err => some err
  | .ok resp =>
    if resp.StatusCode ≠ http.StatusOK then
      some (errors.New resp.Body)
    else
      none

/-! ## `internal/payment/api` -/

/-- The `PaymentsAPI` client; its `client` and `logger` fields are read by none
of the methods embedded here. -/
structure PaymentsAPI where
  baseURL : String
deriving DecidableEq, Repr

/-- Named results `(res, err)` of `CreatePayment`. -/
structure CreatePaymentResult where
  res : Payment
  err : Option Error
deriving DecidableEq, Repr

/-- Named results `(found, err)` of `SetPaymentStatus` and `SetRentalStatus`. -/
structure SetStatusResult where
  found : Bool
  err : Option Error
deriving DecidableEq, Repr

/-- Named results `(res, found, err)` of `GetPayment`. -/
structure GetPaymentResult where
  res : Payment
  found : Bool
  err : Option Error
deriving DecidableEq, Repr

/-- Request of `CreatePayment`: `POST baseURL/api/v1/payments?price={price}`. -/
def PaymentsAPI.createPaymentRequest (api : PaymentsAPI) (price : Nat) : Request :=
  { Method := "POST", URL := api.baseURL ++ "/api/v1/payments?price=" ++ toString price,
    Header := [], Body := none }

/-- Request of `SetPaymentStatus`: `PUT baseURL/api/v1/payments/{id}/status`
with the status token as body. -/
def PaymentsAPI.setPaymentStatusRequest (api : PaymentsAPI) (paymentUID status : String) :
    Request :=
  { Method := "PUT", URL := api.baseURL ++ "/api/v1/payments/" ++ paymentUID ++ "/status",
    Header := [], Body := some (fmt.Sprint status) }

/-- Request of `GetPayment`: `GET baseURL/api/v1/payments/{id}`. -/
def PaymentsAPI.getPaymentRequest (api : PaymentsAPI) (paymentUID : String) : Request :=
  { Method := "GET", URL := api.baseURL ++ "/api/v1/payments/" ++ paymentUID,
    Header := [], Body := none }

def PaymentsAPI.CreatePayment (api : PaymentsAPI) (codec : PaymentCodec) (send : Transport)
    (price : Nat) : CreatePaymentResult :=
  match send (api.createPaymentRequest price) with
  | .error err => ⟨Payment.zero, some err⟩
  | .ok resp =>
    if resp.StatusCode ≠ http.StatusOK then
      ⟨Payment.zero, some (errors.New resp.Body)⟩
    else
      match codec.unmarshal resp.Body with
      | .error err => ⟨Payment.zero, some err⟩
      | .ok payment => ⟨codec.toModel payment, none⟩

def PaymentsAPI.SetPaymentStatus (api : PaymentsAPI) (send : Transport)
    (paymentUID status : String) : SetStatusResult :=
  match send (api.setPaymentStatusRequest paymentUID status) with
  | .error err => ⟨false, some err⟩
  | .ok resp =>
    if resp.StatusCode = http.StatusNotFound then
      ⟨false, none⟩
    else if resp.StatusCode ≠ http.StatusOK then
      ⟨false, some (errors.New resp.Body)⟩
    else
      ⟨true, none⟩

def PaymentsAPI.GetPayment (api : PaymentsAPI) (codec : PaymentCodec) (send : Transport)
    (paymentUID : String) : GetPaymentResult :=
  match send (api.getPaymentRequest paymentUID) with
  | .error err => ⟨Payment.zero, false, some err⟩
  | .ok resp =>
    if resp.StatusCode = http.StatusNotFound then
      ⟨Payment.zero, false, none⟩
    else if resp.StatusCode ≠ http.StatusOK then
      ⟨Payment.zero, false, some (errors.New resp.Body)⟩
    else
      match codec.unmarshal resp.Body with
      | .error err => ⟨Payment.zero, false, some err⟩
      | .ok payment => ⟨codec.toModel payment, true, none⟩

/-! ## `internal/rental/api` -/

/-- The `RentalsAPI` client; its `client` and `logger` fields are read by none
of the methods embedded here. -/
structure RentalsAPI where
  baseURL : String
deriving DecidableEq, Repr

/-- Named results `(res, found, permitted, err)` of `GetUserRental`. -/
structure GetUserRentalResult where
  res : Rental
  found : Bool
  permitted : Bool
  err : Option Error
deriving DecidableEq, Repr

/-- Named results `(res, err)` of `CreateRental`. -/
structure CreateRentalResult where
  res : Rental
  err : Option Error
deriving DecidableEq, Repr

/-- Request of `GetUserRental`: `GET baseURL/api/v1/rentals/{id}` with the
owner in `X-User-Name`. -/
def RentalsAPI.getUserRentalRequest (api : RentalsAPI) (rentalUID username : String) : Request :=
  { Method := "GET", URL := api.baseURL ++ "/api/v1/rentals/" ++ rentalUID,
    Header := [("X-User-Name", username)], Body := none }

/-- Request of `CreateRental`: `POST baseURL/api/v1/rentals` with the marshalled
properties as JSON body. -/
def RentalsAPI.createRentalRequest (api : RentalsAPI) (body : String) : Request :=
  { Method := "POST", URL := api.baseURL ++ "/api/v1/rentals",
    Header := [("Content-Type", "application/json")], Body := some body }

/-- Request of `SetRentalStatus`: `PUT baseURL/api/v1/rentals/{id}/status` with
the status token as body. -/
def RentalsAPI.setRentalStatusRequest (api : RentalsAPI) (rentalUID status : String) : Request :=
  { Method := "PUT", URL := api.baseURL ++ "/api/v1/rentals/" ++ rentalUID ++ "/status",
    Header := [], Body := some (fmt.Sprint status) }

def RentalsAPI.GetUserRental (api : RentalsAPI) (codec : RentalCodec) (send : Transport)
    (rentalUID username : String) : GetUserRentalResult :=
  match send (api.getUserRentalRequest rentalUID username) with
  | .error err => ⟨Rental.zero, false, false, some err⟩
  | .ok resp =>
    if resp.StatusCode = http.StatusNotFound then
      ⟨Rental.zero, false, false, none⟩
    else if resp.StatusCode = http.StatusForbidden then
      ⟨Rental.zero, true, false, none⟩
    else if resp.StatusCode ≠ http.StatusOK then
      ⟨Rental.zero, false, false, some (errors.New resp.Body)⟩
    else
      match codec.unmarshal resp.Body with
      | .error err => ⟨Rental.zero, true, true, some err⟩
      | .ok rental =>
        match codec.toModel rental with
        | .error err => ⟨Rental.zero, true, true, some err⟩
        | .ok model => ⟨model, true, true, none⟩

def RentalsAPI.CreateRental (api : RentalsAPI) (codec : RentalCodec) (send : Transport)
    (properties : RentalProperties) : CreateRentalResult :=
  match codec.marshalProperties properties with
  | .error err => ⟨Rental.zero, some err⟩
  | .ok body =>
    match send (api.createRentalRequest body) with
    | .error err => ⟨Rental.zero, some err⟩
    | .ok resp =>
      if resp.StatusCode ≠ http.StatusOK then
        ⟨Rental.zero, some (errors.New resp.Body)⟩
      else
        match codec.unmarshal resp.Body with
        | .error err => ⟨Rental.zero, some err⟩
        | .ok rental =>
          match codec.toModel rental with
          | .error err => ⟨Rental.zero, some err⟩
          | .ok model => ⟨model, none⟩

def RentalsAPI.SetRentalStatus (api : RentalsAPI) (send : Transport)
    (rentalUID status : String) : SetStatusResult :=
  match send (api.setRentalStatusRequest rentalUID status) with
  | .error err => ⟨false, some err⟩
  | .ok resp =>
    if resp.StatusCode = http.StatusNotFound then
      ⟨false, none⟩
    else if resp.StatusCode ≠ http.StatusOK then
      ⟨false, some (errors.New resp.Body)⟩
    else
      ⟨true, none⟩

/-! ## `internal/gateway/dto.go` -/

structure RentalCarDTO where
  CarUID : String
  Brand : String
  Model : String
  RegistrationNumber : String
deriving DecidableEq, Repr

structure RentalPayment where
  PaymentUID : String
  Status : String
  Price : Nat
deriving DecidableEq, Repr

structure RentalDTO where
  RentalUID : String
  DateFrom : String
  DateTo : String
  Status : String
  Car : RentalCarDTO
  Payment : RentalPayment
deriving DecidableEq, Repr

/-- Go map `map[string]models.Car`: the entry stored under a key, if any. -/
abbrev CarMap := String → Option Car

/-- Go map index expression `cars[key]`: the zero value for an absent key. -/
def CarMap.index (cars : CarMap) (key : String) : Car :=
  match cars key with
  | some car => car
  | none => Car.zero

/-- `NewRentalDTO`; `format` is `Time.Format(time.DateOnly)`. -/
def NewRentalDTO (format : Time → String) (rental : Rental) (car : Car) (payment : Payment) :
    RentalDTO :=
  { RentalUID := rental.RentalUID
    DateFrom := format rental.DateFrom
    DateTo := format rental.DateTo
    Status := rental.Status
    Car :=
      { CarUID := car.CarUID
        Brand := car.Brand
        Model := car.Model
        RegistrationNumber := car.RegistrationNumber }
    Payment :=
      { PaymentUID := payment.PaymentUID
        Status := payment.Status
        Price := payment.Price } }

/-- The loop `for i := range rentals` of `NewRentalsDTO`, entered at index `i`
with `rest` the rentals from `i` on and `items` the slice built so far.
Indexing `payments[i]` out of range panics (`none`). -/
def NewRentalsDTO.loop (format : Time → String) (cars : CarMap) (payments : List Payment) :
    Nat → List Rental → List RentalDTO → Option (List RentalDTO)
  | _, [], items => some items
  | i, rental :: rest, items =>
    match payments[i]? with
    | none => none
    | some payment =>
      NewRentalsDTO.loop format cars payments (i + 1) rest
        (items ++ [NewRentalDTO format rental (cars.index rental.CarUID) payment])

/-- `NewRentalsDTO`; the three ignored `uint64` arguments are dropped. -/
def NewRentalsDTO (format : Time → String) (rentals : List Rental) (cars : CarMap)
    (payments : List Payment) : Option (List RentalDTO) :=
  NewRentalsDTO.loop format cars payments 0 rentals []

/-! ## Fixtures: the smallest decoders a concrete run needs -/

/-- A car decoder: an empty body is a syntax error, any other body is the
identifier of the car. -/
def sampleCarCodec : CarCodec where
  DTO := String
  unmarshal := fun body =>
    if body = "" then .error ⟨"unexpected end of JSON input"⟩ else .ok body
  toModel := fun uid => { Car.zero with CarUID := uid }

/-- A payment decoder: an empty body is a syntax error, any other body is the
identifier of the payment. -/
def samplePaymentCodec : PaymentCodec where
  DTO := String
  unmarshal := fun body =>
    if body = "" then .error ⟨"unexpected end of JSON input"⟩ else .ok body
  toModel := fun uid => { Payment.zero with PaymentUID := uid }

/-- A rental decoder: an empty body is a syntax error, any other body is the
identifier of the rental; a rental identified `bad-date` fails `ToModel`. -/
def sampleRentalCodec : RentalCodec where
  DTO := String
  unmarshal := fun body =>
    if body = "" then .error ⟨"unexpected end of JSON input"⟩ else .ok body
  toModel := fun uid =>
    if uid = "bad-date" then .error ⟨"parsing time"⟩ else .ok { Rental.zero with RentalUID := uid }
  marshalProperties := fun properties => .ok properties.CarUID

/-- A transport that answers every request with the same response. -/
def always (resp : Response) : Transport := fun _ => .ok resp

/-- A date layout with two outputs: the zero time and any other time. -/
def sampleFormat : Time → String :=
  fun t => if t.ticks = 0 then "0001-01-01" else "2021-10-08"

/-- A rental of car `c-1`. -/
def sampleRental : Rental := ⟨"r-1", "alice", "p-1", "c-1", ⟨1⟩, ⟨2⟩, "IN_PROGRESS"⟩

/-- The payment of `sampleRental`. -/
def samplePayment : Payment := ⟨"p-1", "PAID", 3500⟩

/-- Response body of the create-rental endpoint (`dto.go`). -/
structure CarRentalPayment where
  PaymentUID : String
  Status : String
  Price : Nat
deriving DecidableEq, Repr

structure CarRentalResponse where
  RentalUID : String
  Status : String
  CarUID : String
  DateFrom : String
  DateTo : String
  Payment : CarRentalPayment
deriving DecidableEq, Repr

/-- `NewRentalResponse`; `format` is `Time.Format(time.DateOnly)`. -/
def NewRentalResponse (format : Time → String) (rental : Rental) (payment : Payment) :
    CarRentalResponse :=
  { RentalUID := rental.RentalUID
    Status := rental.Status
    CarUID := rental.CarUID
    DateFrom := format rental.DateFrom
    DateTo := format rental.DateTo
    Payment :=
      { PaymentUID := payment.PaymentUID
        Status := payment.Status
        Price := payment.Price } }

/-! ## The create-rental workflow

`cmd/gateway/main.go` hands the three clients to `gateway.New`; the workflow
that drives them is in the part of `internal/gateway` that is not embedded
here (only `dto.go` is) and is modelled from section 4.4 of the
specification. -/

/-- Modelled from the spec: the Car, Payment and Rental services behind the
three clients (section 6), as one state machine answering a request from its
current state, with the observation whether a car is locked. -/
structure Backend (σ : Type) where
  handle : Request → σ → Except Error Response × σ
  carLocked : σ → String → Bool

/-- Modelled from the spec: one execution of a workflow, the state of the
services and the requests sent so far, oldest first. -/
structure Run (σ : Type) where
  state : σ
  sent : List Request

/-- Modelled from the spec: the transport a client sees during a run, the
services answering from their current state. -/
def Backend.reply {σ : Type} (b : Backend σ) (run : Run σ) : Transport :=
  fun req => (b.handle req run.state).1

/-- Modelled from the spec: the run after the services have handled a
request. -/
def Backend.deliver {σ : Type} (b : Backend σ) (run : Run σ) (req : Request) : Run σ :=
  ⟨(b.handle req run.state).2, run.sent ++ [req]⟩

/-- Modelled from the spec: the wire token of the canceled payment status
(`models.PaymentStatus` is not among the sources). -/
def PaymentStatusCanceled : String := "CANCELED"

/-- Modelled from the spec: the value `gateway.New` builds in `main.go` from
the three clients, with the decoders they use, the date layout and the price
rule of step 2 of section 4.4 (price derived from car and date range). -/
structure Gateway where
  cars : CarsAPI
  rentals : RentalsAPI
  payments : PaymentsAPI
  carCodec : CarCodec
  rentalCodec : RentalCodec
  paymentCodec : PaymentCodec
  format : Time → String
  price : Car → Time → Time → Nat

/-- Modelled from the spec: `lockCar` of CarPort as a remote call, the result
of `CarsAPI.LockCar` on the services' reply and the run after its request. -/
def Gateway.lockCar {σ : Type} (g : Gateway) (b : Backend σ) (carUID : String) (run : Run σ) :
    LockCarResult × Run σ :=
  (g.cars.LockCar g.carCodec (b.reply run) carUID, b.deliver run (g.cars.lockCarRequest carUID))

/-- Modelled from the spec: `unlockCar` of CarPort as a remote call through
`CarsAPI.UnlockCar`. -/
def Gateway.unlockCar {σ : Type} (g : Gateway) (b : Backend σ) (carUID : String) (run : Run σ) :
    Option Error × Run σ :=
  (g.cars.UnlockCar (b.reply run) carUID, b.deliver run (g.cars.unlockCarRequest carUID))

/-- Modelled from the spec: `createPayment` of PaymentPort as a remote call
through `PaymentsAPI.CreatePayment`. -/
def Gateway.createPayment {σ : Type} (g : Gateway) (b : Backend σ) (price : Nat) (run : Run σ) :
    CreatePaymentResult × Run σ :=
  (g.payments.CreatePayment g.paymentCodec (b.reply run) price,
    b.deliver run (g.payments.createPaymentRequest price))

/-- Modelled from the spec: `setPaymentStatus` of PaymentPort as a remote call
through `PaymentsAPI.SetPaymentStatus`. -/
def Gateway.setPaymentStatus {σ : Type} (g : Gateway) (b : Backend σ)
    (paymentUID status : String) (run : Run σ) : SetStatusResult × Run σ :=
  (g.payments.SetPaymentStatus (b.reply run) paymentUID status,
    b.deliver run (g.payments.setPaymentStatusRequest paymentUID status))

/-- Modelled from the spec: `createRental` of RentalPort as a remote call
through `RentalsAPI.CreateRental`; no request leaves when the properties fail
to marshal. -/
def Gateway.createRental {σ : Type} (g : Gateway) (b : Backend σ)
    (properties : RentalProperties) (run : Run σ) : CreateRentalResult × Run σ :=
  (g.rentals.CreateRental g.rentalCodec (b.reply run) properties,
    match g.rentalCodec.marshalProperties properties with
    | .ok body => b.deliver run (g.rentals.createRentalRequest body)
    | .error _ => run)

/-- Modelled from the spec: the business rejections of step 1 of
CreateRentalSaga. -/
inductive UserError where
  | CarNotFound
  | CarUnavailable
deriving DecidableEq, Repr

/-- Modelled from the spec: an entity a failed compensation leaves behind
(section 7: the orphaned car or payment identifier). -/
inductive Orphan where
  | lockedCar (carUID : String)
  | payment (paymentUID : String)
deriving DecidableEq, Repr

/-- Modelled from the spec: the error taxonomy of section 7. -/
inductive SagaError where
  | userError (reason : UserError)
  | remoteError (cause : Error)
  | inconsistent (cause : Error) (orphans : List Orphan)
deriving DecidableEq, Repr

/-- Modelled from the spec: the undo action paired with a completed forward
step (section 9, compensation stack). -/
inductive Undo where
  | cancelPayment (paymentUID : String)
  | unlockCar (carUID : String)
deriving DecidableEq, Repr

/-- Modelled from the spec: one compensation, attempted once; a failing call
is recorded as the orphan it leaves. -/
def Gateway.undo {σ : Type} (g : Gateway) (b : Backend σ) (step : Undo) (run : Run σ) :
    Option Orphan × Run σ :=
  match step with
  | .cancelPayment paymentUID =>
    match (g.setPaymentStatus b paymentUID PaymentStatusCanceled run).1.err with
    | none => (none, (g.setPaymentStatus b paymentUID PaymentStatusCanceled run).2)
    | some _ =>
      (some (.payment paymentUID), (g.setPaymentStatus b paymentUID PaymentStatusCanceled run).2)
  | .unlockCar carUID =>
    match (g.unlockCar b carUID run).1 with
    | none => (none, (g.unlockCar b carUID run).2)
    | some _ => (some (.lockedCar carUID), (g.unlockCar b carUID run).2)

/-- Modelled from the spec: the undo actions of the completed steps popped
and executed in order, every one attempted, the orphans of the failing ones
collected. -/
def Gateway.compensate {σ : Type} (g : Gateway) (b : Backend σ) :
    List Undo → Run σ → List Orphan × Run σ
  | [], run => ([], run)
  | step :: rest, run =>
    ((g.undo b step run).1.toList ++ (g.compensate b rest (g.undo b step run).2).1,
      (g.compensate b rest (g.undo b step run).2).2)

/-- Modelled from the spec: failure of a forward step after the car was
locked: compensate, then RemoteError, or Inconsistent naming the orphans when
a compensation failed. -/
def Gateway.abort {σ : Type} (g : Gateway) (b : Backend σ) (cause : Error) (stack : List Undo)
    (run : Run σ) : Except SagaError CarRentalResponse × Run σ :=
  match (g.compensate b stack run).1 with
  | [] => (.error (.remoteError cause), (g.compensate b stack run).2)
  | orphan :: more =>
    (.error (.inconsistent cause (orphan :: more)), (g.compensate b stack run).2)

/-- Modelled from the spec: CreateRentalSaga of section 4.4 over the three
clients: lock the car, create the payment, create the rental, each failure
after the lock compensated in reverse order. -/
def Gateway.CreateRentalSaga {σ : Type} (g : Gateway) (b : Backend σ)
    (username carUID : String) (dateFrom dateTo : Time) (start : σ) :
    Except SagaError CarRentalResponse × Run σ :=
  let lock := g.lockCar b carUID ⟨start, []⟩
  match lock.1.err with
  | some err => (.error (.remoteError err), lock.2)
  | none =>
    if lock.1.found = false then
      (.error (.userError .CarNotFound), lock.2)
    else if lock.1.success = false then
      (.error (.userError .CarUnavailable), lock.2)
    else
      let payment := g.createPayment b (g.price lock.1.res dateFrom dateTo) lock.2
      match payment.1.err with
      | some err => g.abort b err [.unlockCar carUID] payment.2
      | none =>
        let rental := g.createRental b
          { Username := username, PaymentUID := payment.1.res.PaymentUID, CarUID := carUID,
            DateFrom := dateFrom, DateTo := dateTo } payment.2
        match rental.1.err with
        | some err =>
          g.abort b err [.cancelPayment payment.1.res.PaymentUID, .unlockCar carUID] rental.2
        | none => (.ok (NewRentalResponse g.format rental.1.res payment.1.res), rental.2)

/-- State of the scripted services: whether the one car is locked and the
replies still to give, one per request. -/
structure Scripted where
  locked : Bool
  replies : List (Except Error Response)

/-- Services holding one car and answering from a script: a 200 reply to the
car's lock request locks it, a 200 reply to its unlock request unlocks it;
once the script is used up every request fails. -/
def scriptedBackend (cars : CarsAPI) (carUID : String) : Backend Scripted where
  handle := fun req st =>
    match st.replies with
    | [] => (.error ⟨"connection refused"⟩, st)
    | .ok resp :: rest =>
      if resp.StatusCode = 200 ∧ req = cars.unlockCarRequest carUID then
        (.ok resp, ⟨false, rest⟩)
      else if resp.StatusCode = 200 ∧ req = cars.lockCarRequest carUID then
        (.ok resp, ⟨true, rest⟩)
      else
        (.ok resp, ⟨st.locked, rest⟩)
    | .error err :: rest => (.error err, ⟨st.locked, rest⟩)
  carLocked := fun st uid => uid = carUID && st.locked

/-- A gateway over the sample decoders. -/
def sampleGateway : Gateway where
  cars := ⟨"http://cars"⟩
  rentals := ⟨"http://rentals"⟩
  payments := ⟨"http://payments"⟩
  carCodec := sampleCarCodec
  rentalCodec := sampleRentalCodec
  paymentCodec := samplePaymentCodec
  format := sampleFormat
  price := fun car _ _ => car.Price

/-! ## Properties of the car client -/

/-- C1: given any response to its request, `LockCar` yields not-found on 404,
already-locked (no error) on 423, and the converted car with both flags set on
200 with a decodable body; whenever it returns a nil error the response was one
of these three. -/
theorem LockCar_three_outcomes (api : CarsAPI) (codec : CarCodec) (send : Transport)
    (carUID : String) (resp : Response) (h : send (api.lockCarRequest carUID) = .ok resp) :
    (resp.StatusCode = 404 → api.LockCar codec send carUID = ⟨Car.zero, false, false, none⟩) ∧
    (resp.StatusCode = 423 → api.LockCar codec send carUID = ⟨Car.zero, true, false, none⟩) ∧
    (∀ dto, resp.StatusCode = 200 → codec.unmarshal resp.Body = .ok dto →
      api.LockCar codec send carUID = ⟨codec.toModel dto, true, true, none⟩) ∧
    ((api.LockCar codec send carUID).err = none →
      resp.StatusCode = 404 ∨ resp.StatusCode = 423 ∨
        (resp.StatusCode = 200 ∧ ∃ dto, codec.unmarshal resp.Body = .ok dto)) := by
  refine ⟨?_, ?_, ?_, ?_⟩
  · intro hs
    simp [CarsAPI.LockCar, h, hs]
  · intro hs
    simp [CarsAPI.LockCar, h, hs]
  · intro dto hs hd
    simp [CarsAPI.LockCar, h, hs, hd]
  · intro herr
    by_cases h404 : resp.StatusCode = 404
    · exact Or.inl h404
    · by_cases h423 : resp.StatusCode = 423
      · exact Or.inr (Or.inl h423)
      · by_cases h200 : resp.StatusCode = 200
        · refine Or.inr (Or.inr ⟨h200, ?_⟩)
          cases hd : codec.unmarshal resp.Body with
          | error e => simp [CarsAPI.LockCar, h, h200, hd] at herr
          | ok dto => exact ⟨dto, rfl⟩
        · simp [CarsAPI.LockCar, h, h404, h423, h200] at herr

/-- C1 at a concrete exchange: a 423 reply is already-locked with a nil error. -/
theorem LockCar_three_outcomes_witness :
    (CarsAPI.mk "http://cars").LockCar sampleCarCodec (always ⟨423, "locked"⟩) "c-1"
      = ⟨Car.zero, true, false, none⟩ :=
  (LockCar_three_outcomes ⟨"http://cars"⟩ sampleCarCodec (always ⟨423, "locked"⟩) "c-1"
    ⟨423, "locked"⟩ rfl).2.1 rfl

/-! ## Properties of the rental client -/

/-- C2: given any response to its request, `GetUserRental` yields the zero
rental with found and permitted false on 404, the zero rental with found true
and permitted false on 403 whatever the body, and the decoded rental with both
flags true on 200 with a decodable body; only that last case yields a nil
error with permitted true, and a rental other than the zero value comes only
with permitted true. -/
theorem GetUserRental_tri_state (api : RentalsAPI) (codec : RentalCodec) (send : Transport)
    (rentalUID username : String) (resp : Response)
    (h : send (api.getUserRentalRequest rentalUID username) = .ok resp) :
    (resp.StatusCode = 404 →
      api.GetUserRental codec send rentalUID username = ⟨Rental.zero, false, false, none⟩) ∧
    (resp.StatusCode = 403 →
      api.GetUserRental codec send rentalUID username = ⟨Rental.zero, true, false, none⟩) ∧
    (∀ dto model, resp.StatusCode = 200 → codec.unmarshal resp.Body = .ok dto →
      codec.toModel dto = .ok model →
      api.GetUserRental codec send rentalUID username = ⟨model, true, true, none⟩) ∧
    ((api.GetUserRental codec send rentalUID username).permitted = true →
      (api.GetUserRental codec send rentalUID username).err = none →
      resp.StatusCode = 200 ∧ ∃ dto model, codec.unmarshal resp.Body = .ok dto ∧
        codec.toModel dto = .ok model ∧
        api.GetUserRental codec send rentalUID username = ⟨model, true, true, none⟩) ∧
    ((api.GetUserRental codec send rentalUID username).res ≠ Rental.zero →
      (api.GetUserRental codec send rentalUID username).permitted = true) := by
  refine ⟨?_, ?_, ?_, ?_, ?_⟩
  · intro hs
    simp [RentalsAPI.GetUserRental, h, hs]
  · intro hs
    simp [RentalsAPI.GetUserRental, h, hs]
  · intro dto model hs hd hm
    simp [RentalsAPI.GetUserRental, h, hs, hd, hm]
  · intro hp herr
    by_cases h404 : resp.StatusCode = 404
    · simp [RentalsAPI.GetUserRental, h, h404] at hp
    · by_cases h403 : resp.StatusCode = 403
      · simp [RentalsAPI.GetUserRental, h, h403] at hp
      · by_cases h200 : resp.StatusCode = 200
        · refine ⟨h200, ?_⟩
          cases hd : codec.unmarshal resp.Body with
          | error e => simp [RentalsAPI.GetUserRental, h, h200, hd] at herr
          | ok dto =>
            cases hm : codec.toModel dto with
            | error e => simp [RentalsAPI.GetUserRental, h, h200, hd, hm] at herr
            | ok model =>
              exact ⟨dto, model, rfl, hm, by simp [RentalsAPI.GetUserRental, h, h200, hd, hm]⟩
        · simp [RentalsAPI.GetUserRental, h, h404, h403, h200] at hp
  · intro hres
    by_cases h404 : resp.StatusCode = 404
    · simp [RentalsAPI.GetUserRental, h, h404] at hres
    · by_cases h403 : resp.StatusCode = 403
      · simp [RentalsAPI.GetUserRental, h, h403] at hres
      · by_cases h200 : resp.StatusCode = 200
        · cases hd : codec.unmarshal resp.Body with
          | error e => simp [RentalsAPI.GetUserRental, h, h200, hd]
          | ok dto =>
            cases hm : codec.toModel dto with
            | error e => simp [RentalsAPI.GetUserRental, h, h200, hd, hm]
            | ok model => simp [RentalsAPI.GetUserRental, h, h200, hd, hm]
        · simp [RentalsAPI.GetUserRental, h, h404, h403, h200] at hres

/-- C2 at a concrete exchange: a 403 reply whose body is a decodable rental
still yields the zero rental. -/
theorem GetUserRental_tri_state_witness :
    (RentalsAPI.mk "http://rentals").GetUserRental sampleRentalCodec
        (always ⟨403, "r-7"⟩) "r-7" "mallory"
      = ⟨Rental.zero, true, false, none⟩ :=
  (GetUserRental_tri_state ⟨"http://rentals"⟩ sampleRentalCodec (always ⟨403, "r-7"⟩)
    "r-7" "mallory" ⟨403, "r-7"⟩ rfl).2.1 rfl

/-! ## Properties of the status setters -/

/-- C3: given any response to its request, `SetPaymentStatus` returns
`(false, nil)` exactly on 404, `(true, nil)` exactly on 200, and found false
with the body as error on any other status; any call of it that receives the
same response returns the same result. -/
theorem SetPaymentStatus_found_contract (api : PaymentsAPI) (send : Transport)
    (paymentUID status : String) (resp : Response)
    (h : send (api.setPaymentStatusRequest paymentUID status) = .ok resp) :
    (api.SetPaymentStatus send paymentUID status = ⟨false, none⟩ ↔ resp.StatusCode = 404) ∧
    (api.SetPaymentStatus send paymentUID status = ⟨true, none⟩ ↔ resp.StatusCode = 200) ∧
    (resp.StatusCode ≠ 404 → resp.StatusCode ≠ 200 →
      api.SetPaymentStatus send paymentUID status = ⟨false, some (errors.New resp.Body)⟩) ∧
    (∀ (api2 : PaymentsAPI) (send2 : Transport) (paymentUID2 status2 : String),
      send2 (api2.setPaymentStatusRequest paymentUID2 status2) = .ok resp →
      api2.SetPaymentStatus send2 paymentUID2 status2
        = api.SetPaymentStatus send paymentUID status) := by
  refine ⟨?_, ?_, ?_, ?_⟩
  · by_cases h404 : resp.StatusCode = 404
    · simp [PaymentsAPI.SetPaymentStatus, h, h404]
    · by_cases h200 : resp.StatusCode = 200
      · simp [PaymentsAPI.SetPaymentStatus, h, h200]
      · simp [PaymentsAPI.SetPaymentStatus, h, h404, h200]
  · by_cases h404 : resp.StatusCode = 404
    · simp [PaymentsAPI.SetPaymentStatus, h, h404]
    · by_cases h200 : resp.StatusCode = 200
      · simp [PaymentsAPI.SetPaymentStatus, h, h200]
      · simp [PaymentsAPI.SetPaymentStatus, h, h404, h200]
  · intro h404 h200
    simp [PaymentsAPI.SetPaymentStatus, h, h404, h200]
  · intro api2 send2 paymentUID2 status2 h2
    simp [PaymentsAPI.SetPaymentStatus, h, h2]

/-- C3 at a concrete exchange: the same terminal status set twice, a 200 each
time, is found both times. -/
theorem SetPaymentStatus_found_contract_witness :
    (PaymentsAPI.mk "http://payments").SetPaymentStatus (always ⟨200, ""⟩) "p-1" "CANCELED"
        = ⟨true, none⟩ ∧
    (PaymentsAPI.mk "http://payments").SetPaymentStatus (always ⟨200, ""⟩) "p-1" "CANCELED"
        = (PaymentsAPI.mk "http://payments").SetPaymentStatus (always ⟨200, ""⟩) "p-1" "CANCELED" :=
  have key := SetPaymentStatus_found_contract ⟨"http://payments"⟩ (always ⟨200, ""⟩)
    "p-1" "CANCELED" ⟨200, ""⟩ rfl
  ⟨key.2.1.mpr rfl, key.2.2.2 ⟨"http://payments"⟩ (always ⟨200, ""⟩) "p-1" "CANCELED" rfl⟩

/-- C4: when `SetRentalStatus` and `SetPaymentStatus` receive the same response
they return the same found flag and the same error; a non-nil error carries the
response body as its message. -/
theorem SetRentalStatus_same_contract (rentals : RentalsAPI) (payments : PaymentsAPI)
    (sendR sendP : Transport) (rentalUID rentalStatus paymentUID paymentStatus : String)
    (resp : Response)
    (hR : sendR (rentals.setRentalStatusRequest rentalUID rentalStatus) = .ok resp)
    (hP : sendP (payments.setPaymentStatusRequest paymentUID paymentStatus) = .ok resp) :
    (rentals.SetRentalStatus sendR rentalUID rentalStatus).found
        = (payments.SetPaymentStatus sendP paymentUID paymentStatus).found ∧
    ((rentals.SetRentalStatus sendR rentalUID rentalStatus).err = none ↔
        (payments.SetPaymentStatus sendP paymentUID paymentStatus).err = none) ∧
    (∀ e, (rentals.SetRentalStatus sendR rentalUID rentalStatus).err = some e →
        (payments.SetPaymentStatus sendP paymentUID paymentStatus).err = some e ∧
        e.msg = resp.Body) := by
  by_cases h404 : resp.StatusCode = 404
  · simp [RentalsAPI.SetRentalStatus, PaymentsAPI.SetPaymentStatus, hR, hP, h404]
  · by_cases h200 : resp.StatusCode = 200
    · simp [RentalsAPI.SetRentalStatus, PaymentsAPI.SetPaymentStatus, hR, hP, h200]
    · simp [RentalsAPI.SetRentalStatus, PaymentsAPI.SetPaymentStatus, hR, hP, h404, h200,
        errors.New]

/-- C4 at a concrete exchange: a 500 reply gives both setters found false. -/
theorem SetRentalStatus_same_contract_witness :
    ((RentalsAPI.mk "http://rentals").SetRentalStatus (always ⟨500, "boom"⟩) "r-1" "CANCELED").found
      = ((PaymentsAPI.mk "http://payments").SetPaymentStatus (always ⟨500, "boom"⟩)
          "p-1" "CANCELED").found :=
  (SetRentalStatus_same_contract ⟨"http://rentals"⟩ ⟨"http://payments"⟩ (always ⟨500, "boom"⟩)
    (always ⟨500, "boom"⟩) "r-1" "CANCELED" "p-1" "CANCELED" ⟨500, "boom"⟩ rfl rfl).1

/-! ## Properties of status handling across the clients -/

/-- C5 (as the code has it): given any response to its request, `UnlockCar`
returns nil exactly on 200, and on every other status, 404 included, an error
whose message is the response body. -/
theorem UnlockCar_only_200_succeeds (api : CarsAPI) (send : Transport) (carUID : String)
    (resp : Response) (h : send (api.unlockCarRequest carUID) = .ok resp) :
    (api.UnlockCar send carUID = none ↔ resp.StatusCode = 200) ∧
    (resp.StatusCode ≠ 200 → api.UnlockCar send carUID = some (errors.New resp.Body)) := by
  by_cases h200 : resp.StatusCode = 200
  · simp [CarsAPI.UnlockCar, h, h200]
  · simp [CarsAPI.UnlockCar, h, h200]

/-- C5 at a concrete exchange: a 404 reply to `UnlockCar` is the error made of
its body. -/
theorem UnlockCar_only_200_succeeds_witness :
    (CarsAPI.mk "http://cars").UnlockCar (always ⟨404, "car not found"⟩) "c-1"
      = some (errors.New "car not found") :=
  (UnlockCar_only_200_succeeds ⟨"http://cars"⟩ (always ⟨404, "car not found"⟩) "c-1"
    ⟨404, "car not found"⟩ rfl).2 (by decide)

/-- C5 as stated fails: a 404 reply and a 500 reply with the same body give
`UnlockCar` the same result. -/
theorem UnlockCar_404_not_distinguished :
    ¬ ((CarsAPI.mk "http://cars").UnlockCar (always ⟨404, "car not found"⟩) "c-1"
        ≠ (CarsAPI.mk "http://cars").UnlockCar (always ⟨500, "car not found"⟩) "c-1") := by
  simp [CarsAPI.UnlockCar, always]

/-- C6: a response whose status is none of the documented codes makes each of
`LockCar`, `GetCar`, `GetPayment`, `SetPaymentStatus`, `SetRentalStatus` and
`GetUserRental` return the zero entity, all flags false, and an error whose
message is the response body. -/
theorem undocumented_status_is_failure (resp : Response)
    (h200 : resp.StatusCode ≠ 200) (h404 : resp.StatusCode ≠ 404) :
    (∀ (api : CarsAPI) (codec : CarCodec) (send : Transport) (carUID : String),
      send (api.lockCarRequest carUID) = .ok resp → resp.StatusCode ≠ 423 →
      api.LockCar codec send carUID = ⟨Car.zero, false, false, some (errors.New resp.Body)⟩) ∧
    (∀ (api : CarsAPI) (codec : CarCodec) (send : Transport) (carUID : String),
      send (api.getCarRequest carUID) = .ok resp →
      api.GetCar codec send carUID = ⟨Car.zero, false, some (errors.New resp.Body)⟩) ∧
    (∀ (api : PaymentsAPI) (codec : PaymentCodec) (send : Transport) (paymentUID : String),
      send (api.getPaymentRequest paymentUID) = .ok resp →
      api.GetPayment codec send paymentUID
        = ⟨Payment.zero, false, some (errors.New resp.Body)⟩) ∧
    (∀ (api : PaymentsAPI) (send : Transport) (paymentUID status : String),
      send (api.setPaymentStatusRequest paymentUID status) = .ok resp →
      api.SetPaymentStatus send paymentUID status = ⟨false, some (errors.New resp.Body)⟩) ∧
    (∀ (api : RentalsAPI) (send : Transport) (rentalUID status : String),
      send (api.setRentalStatusRequest rentalUID status) = .ok resp →
      api.SetRentalStatus send rentalUID status = ⟨false, some (errors.New resp.Body)⟩) ∧
    (∀ (api : RentalsAPI) (codec : RentalCodec) (send : Transport) (rentalUID username : String),
      send (api.getUserRentalRequest rentalUID username) = .ok resp →
      resp.StatusCode ≠ 403 →
      api.GetUserRental codec send rentalUID username
        = ⟨Rental.zero, false, false, some (errors.New resp.Body)⟩) ∧
    (errors.New resp.Body).msg = resp.Body := by
  refine ⟨?_, ?_, ?_, ?_, ?_, ?_, rfl⟩
  · intro api codec send carUID h h423
    simp [CarsAPI.LockCar, h, h200, h404, h423]
  · intro api codec send carUID h
    simp [CarsAPI.GetCar, h, h200, h404]
  · intro api codec send paymentUID h
    simp [PaymentsAPI.GetPayment, h, h200, h404]
  · intro api send paymentUID status h
    simp [PaymentsAPI.SetPaymentStatus, h, h200, h404]
  · intro api send rentalUID status h
    simp [RentalsAPI.SetRentalStatus, h, h200, h404]
  · intro api codec send rentalUID username h h403
    simp [RentalsAPI.GetUserRental, h, h200, h404, h403]

/-- C6 at a concrete exchange: a 409 reply to `LockCar` is a failure carrying
the body, not already-locked. -/
theorem undocumented_status_is_failure_witness :
    (CarsAPI.mk "http://cars").LockCar sampleCarCodec (always ⟨409, "conflict"⟩) "c-1"
      = ⟨Car.zero, false, false, some (errors.New "conflict")⟩ :=
  (undocumented_status_is_failure ⟨409, "conflict"⟩ (by decide) (by decide)).1
    ⟨"http://cars"⟩ sampleCarCodec (always ⟨409, "conflict"⟩) "c-1" rfl (by decide)

/-- With a non-nil error `LockCar` returns the zero car and both flags false,
whatever the transport outcome, a 200 response with an undecodable body
included. -/
theorem LockCar_failure_results (api : CarsAPI) (codec : CarCodec) (send : Transport)
    (carUID : String) (herr : (api.LockCar codec send carUID).err ≠ none) :
    (api.LockCar codec send carUID).res = Car.zero ∧
    (api.LockCar codec send carUID).found = false ∧
    (api.LockCar codec send carUID).success = false := by
  cases h : send (api.lockCarRequest carUID) with
  | error e => simp [CarsAPI.LockCar, h]
  | ok resp =>
    by_cases h404 : resp.StatusCode = 404
    · simp [CarsAPI.LockCar, h, h404] at herr
    · by_cases h423 : resp.StatusCode = 423
      · simp [CarsAPI.LockCar, h, h423] at herr
      · by_cases h200 : resp.StatusCode = 200
        · cases hd : codec.unmarshal resp.Body with
          | error e => simp [CarsAPI.LockCar, h, h200, hd]
          | ok dto => simp [CarsAPI.LockCar, h, h200, hd] at herr
        · simp [CarsAPI.LockCar, h, h404, h423, h200]

/-- On every 200 response whose body fails `json.Unmarshal`, `GetUserRental`
returns the decoding error together with found and permitted both true. -/
theorem GetUserRental_undecodable (api : RentalsAPI) (codec : RentalCodec) (send : Transport)
    (rentalUID username : String) (resp : Response) (e : Error)
    (h : send (api.getUserRentalRequest rentalUID username) = .ok resp)
    (h200 : resp.StatusCode = 200) (hd : codec.unmarshal resp.Body = .error e) :
    api.GetUserRental codec send rentalUID username = ⟨Rental.zero, true, true, some e⟩ := by
  simp [RentalsAPI.GetUserRental, h, h200, hd]

/-- C10 at the failing input, a 200 reply with an undecodable body:
`GetUserRental` returns a non-nil error with found and permitted both true, so
the claimed false flags do not hold there, while `LockCar` on the same reply
returns a non-nil error with both flags false. -/
theorem GetUserRental_decode_failure_flags :
    (RentalsAPI.mk "http://rentals").GetUserRental sampleRentalCodec (always ⟨200, ""⟩)
        "r-1" "alice"
      = ⟨Rental.zero, true, true, some ⟨"unexpected end of JSON input"⟩⟩ ∧
    ¬ (((RentalsAPI.mk "http://rentals").GetUserRental sampleRentalCodec (always ⟨200, ""⟩)
          "r-1" "alice").err ≠ none →
        ((RentalsAPI.mk "http://rentals").GetUserRental sampleRentalCodec (always ⟨200, ""⟩)
          "r-1" "alice").found = false ∧
        ((RentalsAPI.mk "http://rentals").GetUserRental sampleRentalCodec (always ⟨200, ""⟩)
          "r-1" "alice").permitted = false) ∧
    (CarsAPI.mk "http://cars").LockCar sampleCarCodec (always ⟨200, ""⟩) "c-1"
      = ⟨Car.zero, false, false, some ⟨"unexpected end of JSON input"⟩⟩ := by
  simp [RentalsAPI.GetUserRental, CarsAPI.LockCar, always, sampleRentalCodec, sampleCarCodec]

/-! ## Properties of the page assembler -/

/-- With a payment at every remaining position the loop of `NewRentalsDTO`
runs to the end and appends the items pairwise. -/
theorem NewRentalsDTO.loop_eq (format : Time → String) (cars : CarMap) (payments : List Payment)
    (rest : List Rental) :
    ∀ (i : Nat) (items : List RentalDTO), i + rest.length ≤ payments.length →
      NewRentalsDTO.loop format cars payments i rest items
        = some (items ++ List.zipWith
            (fun rental payment => NewRentalDTO format rental (cars.index rental.CarUID) payment)
            rest (payments.drop i)) := by
  induction rest with
  | nil => intro i items _; simp [NewRentalsDTO.loop]
  | cons rental rest ih =>
    intro i items hlen
    have hi : i < payments.length := by
      simp only [List.length_cons] at hlen
      omega
    have hnext : i + 1 + rest.length ≤ payments.length := by
      simp only [List.length_cons] at hlen
      omega
    rw [NewRentalsDTO.loop, List.getElem?_eq_getElem hi]
    simp only []
    rw [ih (i + 1) _ hnext, List.drop_eq_getElem_cons hi]
    simp only [List.zipWith_cons_cons, List.append_assoc, List.singleton_append]

/-- With at least as many payments as rentals `NewRentalsDTO` returns the
pairwise assembly of the two lists. -/
theorem NewRentalsDTO_eq_zipWith (format : Time → String) (rentals : List Rental)
    (cars : CarMap) (payments : List Payment) (hlen : rentals.length ≤ payments.length) :
    NewRentalsDTO format rentals cars payments
      = some (List.zipWith
          (fun rental payment => NewRentalDTO format rental (cars.index rental.CarUID) payment)
          rentals payments) := by
  have h := NewRentalsDTO.loop_eq format cars payments rentals 0 [] (by simpa using hlen)
  simpa [NewRentalsDTO] using h

/-- C7: with at least as many payments as rentals, `NewRentalsDTO` returns
exactly `len(rentals)` items and the item at each position is `NewRentalDTO` of
the rental, the car stored under its `CarUID` and the payment at that
position; its `rentalUid` and payment fields are those of that rental and that
payment. -/
theorem NewRentalsDTO_keeps_order (format : Time → String) (rentals : List Rental)
    (cars : CarMap) (payments : List Payment) (hlen : rentals.length ≤ payments.length) :
    ∃ items, NewRentalsDTO format rentals cars payments = some items ∧
      items.length = rentals.length ∧
      ∀ (i : Nat) (rental : Rental) (payment : Payment),
        rentals[i]? = some rental → payments[i]? = some payment →
        items[i]? = some (NewRentalDTO format rental (cars.index rental.CarUID) payment) ∧
        (NewRentalDTO format rental (cars.index rental.CarUID) payment).RentalUID
          = rental.RentalUID ∧
        (NewRentalDTO format rental (cars.index rental.CarUID) payment).Payment
          = ⟨payment.PaymentUID, payment.Status, payment.Price⟩ := by
  refine ⟨_, NewRentalsDTO_eq_zipWith format rentals cars payments hlen, ?_, ?_⟩
  · simp [List.length_zipWith, Nat.min_eq_left hlen]
  · intro i rental payment hr hp
    refine ⟨?_, rfl, rfl⟩
    rw [List.getElem?_zipWith, hr, hp]

/-- C7 at a concrete page: two rentals, a map knowing one of the two cars, three
payments. -/
theorem NewRentalsDTO_keeps_order_witness :
    ∃ items,
      NewRentalsDTO sampleFormat [sampleRental, { sampleRental with RentalUID := "r-2" }]
        (fun key => if key = "c-1" then some { Car.zero with CarUID := "c-1" } else none)
        [samplePayment, { samplePayment with PaymentUID := "p-2" }, Payment.zero] = some items ∧
      items.length = 2 := by
  obtain ⟨items, hitems, hlength, _⟩ :=
    NewRentalsDTO_keeps_order sampleFormat [sampleRental, { sampleRental with RentalUID := "r-2" }]
      (fun key => if key = "c-1" then some { Car.zero with CarUID := "c-1" } else none)
      [samplePayment, { samplePayment with PaymentUID := "p-2" }, Payment.zero] (by decide)
  exact ⟨items, hitems, hlength⟩

/-- C8 (as the code has it): with a payment at every rental position,
`NewRentalsDTO` returns the whole page although a rental's car is absent from
the map; the item of such a rental is assembled from the zero car, exactly as
when the map stores the zero car under that key, and every item of another car
is the one assembled when the absent car is present. -/
theorem NewRentalsDTO_absent_car (format : Time → String) (rentals : List Rental)
    (cars : CarMap) (payments : List Payment) (key : String) (car : Car)
    (hlen : rentals.length ≤ payments.length) (habsent : cars key = none) :
    ∃ items full,
      NewRentalsDTO format rentals cars payments = some items ∧
      NewRentalsDTO format rentals (Function.update cars key (some car)) payments = some full ∧
      NewRentalsDTO format rentals (Function.update cars key (some Car.zero)) payments
        = some items ∧
      items.length = rentals.length ∧
      ∀ (i : Nat) (rental : Rental) (payment : Payment),
        rentals[i]? = some rental → payments[i]? = some payment →
        (rental.CarUID = key →
          items[i]? = some (NewRentalDTO format rental Car.zero payment)) ∧
        (rental.CarUID ≠ key → items[i]? = full[i]?) := by
  have hzero : ∀ k, CarMap.index (Function.update cars key (some Car.zero)) k = cars.index k := by
    intro k
    by_cases hk : k = key
    · subst hk
      simp [CarMap.index, habsent]
    · simp [CarMap.index, Function.update_noteq hk]
  refine ⟨_, _, NewRentalsDTO_eq_zipWith format rentals cars payments hlen,
    NewRentalsDTO_eq_zipWith format rentals _ payments hlen, ?_, ?_, ?_⟩
  · rw [NewRentalsDTO_eq_zipWith format rentals _ payments hlen]
    simp only [hzero]
  · simp [List.length_zipWith, Nat.min_eq_left hlen]
  · intro i rental payment hr hp
    constructor
    · intro hk
      rw [List.getElem?_zipWith, hr, hp]
      simp [CarMap.index, hk, habsent]
    · intro hk
      rw [List.getElem?_zipWith, List.getElem?_zipWith, hr, hp]
      simp [CarMap.index, Function.update_noteq hk]

/-- C8 at a concrete page: one rental whose car the map does not hold. -/
theorem NewRentalsDTO_absent_car_witness :
    NewRentalsDTO sampleFormat [sampleRental] (fun _ => none) [samplePayment]
      = NewRentalsDTO sampleFormat [sampleRental]
          (Function.update (fun _ => none) "c-1" (some Car.zero)) [samplePayment] := by
  obtain ⟨items, full, hitems, _, hzero, _⟩ :=
    NewRentalsDTO_absent_car sampleFormat [sampleRental] (fun _ => none) [samplePayment]
      "c-1" Car.zero (by decide) rfl
  rw [hitems, hzero]

/-- C8 as stated fails: a rental without a payment at its position makes the
whole call panic, and the item of a rental whose car is absent is the very item
of a rental whose car is found with zero-valued fields. -/
theorem NewRentalsDTO_missing_not_handled :
    NewRentalsDTO sampleFormat [sampleRental] (fun _ => none) [] = none ∧
    NewRentalsDTO sampleFormat [sampleRental, { sampleRental with RentalUID := "r-2" }]
        (fun _ => none) [samplePayment] = none ∧
    NewRentalsDTO sampleFormat [sampleRental] (fun _ => none) [samplePayment]
      = NewRentalsDTO sampleFormat [sampleRental]
          (fun key => if key = "c-1" then some Car.zero else none) [samplePayment] := by
  refine ⟨rfl, rfl, ?_⟩
  simp [NewRentalsDTO, NewRentalsDTO.loop, CarMap.index, sampleRental]

/-! ## Properties of the create-rental workflow -/

/-- A successful `LockCar` has a nil error and found set. -/
theorem LockCar_success_inv (api : CarsAPI) (codec : CarCodec) (send : Transport)
    (carUID : String) (h : (api.LockCar codec send carUID).success = true) :
    (api.LockCar codec send carUID).err = none ∧ (api.LockCar codec send carUID).found = true := by
  cases hs : send (api.lockCarRequest carUID) with
  | error e => simp [CarsAPI.LockCar, hs] at h
  | ok resp =>
    by_cases h404 : resp.StatusCode = 404
    · simp [CarsAPI.LockCar, hs, h404] at h
    · by_cases h423 : resp.StatusCode = 423
      · simp [CarsAPI.LockCar, hs, h423] at h
      · by_cases h200 : resp.StatusCode = 200
        · cases hd : codec.unmarshal resp.Body with
          | error e => simp [CarsAPI.LockCar, hs, h200, hd] at h
          | ok dto => simp [CarsAPI.LockCar, hs, h200, hd]
        · simp [CarsAPI.LockCar, hs, h404, h423, h200] at h

/-- A nil error of `UnlockCar` comes from a 200 response. -/
theorem UnlockCar_nil_inv (api : CarsAPI) (send : Transport) (carUID : String)
    (h : api.UnlockCar send carUID = none) :
    ∃ resp, send (api.unlockCarRequest carUID) = .ok resp ∧ resp.StatusCode = 200 := by
  cases hs : send (api.unlockCarRequest carUID) with
  | error e => simp [CarsAPI.UnlockCar, hs] at h
  | ok resp =>
    by_cases h200 : resp.StatusCode = 200
    · exact ⟨resp, rfl, h200⟩
    · simp [CarsAPI.UnlockCar, hs, h200] at h

/-- Against services honouring the unlock contract, an unlock call that
returns nil leaves the car unlocked. -/
theorem Gateway.unlockCar_free {σ : Type} (g : Gateway) (b : Backend σ) (carUID : String)
    (run : Run σ)
    (hunlock : ∀ (uid : String) (st : σ) (resp : Response),
      (b.handle (g.cars.unlockCarRequest uid) st).1 = .ok resp → resp.StatusCode = 200 →
      b.carLocked (b.handle (g.cars.unlockCarRequest uid) st).2 uid = false)
    (hnil : (g.unlockCar b carUID run).1 = none) :
    b.carLocked (g.unlockCar b carUID run).2.state carUID = false := by
  have hnil2 : g.cars.UnlockCar (b.reply run) carUID = none := hnil
  obtain ⟨resp, hresp, h200⟩ := UnlockCar_nil_inv _ _ _ hnil2
  exact hunlock carUID run.state resp hresp h200

/-- The rental creation sends at most its one request and keeps those already
sent. -/
theorem Gateway.createRental_sent {σ : Type} (g : Gateway) (b : Backend σ)
    (properties : RentalProperties) (run : Run σ) :
    ∃ forward, (g.createRental b properties run).2.sent = run.sent ++ forward := by
  cases hm : g.rentalCodec.marshalProperties properties with
  | error e => exact ⟨[], by simp [Gateway.createRental, hm]⟩
  | ok body =>
    exact ⟨[g.rentals.createRentalRequest body], by
      simp [Gateway.createRental, hm, Backend.deliver]⟩

/-- Aborting with the unlock as only compensation: the run is the one after
the unlock call; the error is RemoteError when the unlock returned nil and
Inconsistent naming the locked car when it did not. -/
theorem Gateway.abort_unlock {σ : Type} (g : Gateway) (b : Backend σ) (cause : Error)
    (carUID : String) (run : Run σ) :
    (g.abort b cause [.unlockCar carUID] run).2 = (g.unlockCar b carUID run).2 ∧
    ((g.unlockCar b carUID run).1 = none →
      (g.abort b cause [.unlockCar carUID] run).1 = .error (.remoteError cause)) ∧
    ((g.unlockCar b carUID run).1 ≠ none →
      (g.abort b cause [.unlockCar carUID] run).1
        = .error (.inconsistent cause [.lockedCar carUID])) := by
  cases hu : (g.unlockCar b carUID run).1 with
  | none => simp [Gateway.abort, Gateway.compensate, Gateway.undo, hu]
  | some err => simp [Gateway.abort, Gateway.compensate, Gateway.undo, hu]

/-- Aborting with the payment cancelation and then the unlock as
compensations: the run is the one after the two calls in that order; the error
is RemoteError when both returned nil and otherwise Inconsistent naming
exactly the payment whose cancelation failed and the car whose unlock
failed. -/
theorem Gateway.abort_cancel_unlock {σ : Type} (g : Gateway) (b : Backend σ) (cause : Error)
    (paymentUID carUID : String) (run : Run σ) :
    (g.abort b cause [.cancelPayment paymentUID, .unlockCar carUID] run).2
      = (g.unlockCar b carUID (g.setPaymentStatus b paymentUID PaymentStatusCanceled run).2).2 ∧
    ((g.setPaymentStatus b paymentUID PaymentStatusCanceled run).1.err = none →
      (g.unlockCar b carUID (g.setPaymentStatus b paymentUID PaymentStatusCanceled run).2).1
        = none →
      (g.abort b cause [.cancelPayment paymentUID, .unlockCar carUID] run).1
        = .error (.remoteError cause)) ∧
    ((g.setPaymentStatus b paymentUID PaymentStatusCanceled run).1.err ≠ none →
      (g.unlockCar b carUID (g.setPaymentStatus b paymentUID PaymentStatusCanceled run).2).1
        = none →
      (g.abort b cause [.cancelPayment paymentUID, .unlockCar carUID] run).1
        = .error (.inconsistent cause [.payment paymentUID])) ∧
    ((g.setPaymentStatus b paymentUID PaymentStatusCanceled run).1.err = none →
      (g.unlockCar b carUID (g.setPaymentStatus b paymentUID PaymentStatusCanceled run).2).1
        ≠ none →
      (g.abort b cause [.cancelPayment paymentUID, .unlockCar carUID] run).1
        = .error (.inconsistent cause [.lockedCar carUID])) ∧
    ((g.setPaymentStatus b paymentUID PaymentStatusCanceled run).1.err ≠ none →
      (g.unlockCar b carUID (g.setPaymentStatus b paymentUID PaymentStatusCanceled run).2).1
        ≠ none →
      (g.abort b cause [.cancelPayment paymentUID, .unlockCar carUID] run).1
        = .error (.inconsistent cause [.payment paymentUID, .lockedCar carUID])) := by
  cases hc : (g.setPaymentStatus b paymentUID PaymentStatusCanceled run).1.err with
  | none =>
    cases hu : (g.unlockCar b carUID
        (g.setPaymentStatus b paymentUID PaymentStatusCanceled run).2).1 with
    | none => simp [Gateway.abort, Gateway.compensate, Gateway.undo, hc, hu]
    | some err => simp [Gateway.abort, Gateway.compensate, Gateway.undo, hc, hu]
  | some cerr =>
    cases hu : (g.unlockCar b carUID
        (g.setPaymentStatus b paymentUID PaymentStatusCanceled run).2).1 with
    | none => simp [Gateway.abort, Gateway.compensate, Gateway.undo, hc, hu]
    | some err => simp [Gateway.abort, Gateway.compensate, Gateway.undo, hc, hu]

/-- C9: in the create-rental workflow over the three clients, against services
whose 200 reply to an unlock request leaves the car unlocked, take any
execution that fails after `lockCar` succeeded.  The port calls are the
clients' calls on the services' replies.  When the payment creation failed,
the requests sent are the lock, the payment creation and the unlock; the
caller receives RemoteError with the car unlocked if the unlock returned nil
and Inconsistent naming the locked car if it did not.  When a payment was
created, the rental creation failed, and the requests sent end with the
cancelation of that payment followed by the unlock; the caller receives
RemoteError with the car unlocked exactly when both compensations returned
nil, and otherwise Inconsistent naming exactly the payment whose cancelation
failed and the car whose unlock failed.  A car still locked at the end is
always named in an Inconsistent error. -/
theorem CreateRentalSaga_no_orphan_lock {σ : Type} (g : Gateway) (b : Backend σ)
    (username carUID : String) (dateFrom dateTo : Time) (start : σ) (e : SagaError)
    (hunlock : ∀ (uid : String) (st : σ) (resp : Response),
      (b.handle (g.cars.unlockCarRequest uid) st).1 = .ok resp → resp.StatusCode = 200 →
      b.carLocked (b.handle (g.cars.unlockCarRequest uid) st).2 uid = false)
    (hlock : (g.lockCar b carUID ⟨start, []⟩).1.success = true)
    (hfail : (g.CreateRentalSaga b username carUID dateFrom dateTo start).1 = .error e) :
    let lock := g.lockCar b carUID ⟨start, []⟩
    let price := g.price lock.1.res dateFrom dateTo
    let pay := g.createPayment b price lock.2
    let rent := g.createRental b
      { Username := username, PaymentUID := pay.1.res.PaymentUID, CarUID := carUID,
        DateFrom := dateFrom, DateTo := dateTo } pay.2
    let cancel := g.setPaymentStatus b pay.1.res.PaymentUID PaymentStatusCanceled rent.2
    let unlock := g.unlockCar b carUID cancel.2
    let unlockOnly := g.unlockCar b carUID pay.2
    let out := g.CreateRentalSaga b username carUID dateFrom dateTo start
    (lock = (g.cars.LockCar g.carCodec (b.reply ⟨start, []⟩) carUID,
        b.deliver ⟨start, []⟩ (g.cars.lockCarRequest carUID)) ∧
      pay = (g.payments.CreatePayment g.paymentCodec (b.reply lock.2) price,
        b.deliver lock.2 (g.payments.createPaymentRequest price)) ∧
      rent.1 = g.rentals.CreateRental g.rentalCodec (b.reply pay.2)
        { Username := username, PaymentUID := pay.1.res.PaymentUID, CarUID := carUID,
          DateFrom := dateFrom, DateTo := dateTo } ∧
      cancel = (g.payments.SetPaymentStatus (b.reply rent.2) pay.1.res.PaymentUID
          PaymentStatusCanceled,
        b.deliver rent.2
          (g.payments.setPaymentStatusRequest pay.1.res.PaymentUID PaymentStatusCanceled)) ∧
      unlock = (g.cars.UnlockCar (b.reply cancel.2) carUID,
        b.deliver cancel.2 (g.cars.unlockCarRequest carUID)) ∧
      unlockOnly = (g.cars.UnlockCar (b.reply pay.2) carUID,
        b.deliver pay.2 (g.cars.unlockCarRequest carUID))) ∧
    (∀ cause, pay.1.err = some cause →
      out.2.sent = [g.cars.lockCarRequest carUID, g.payments.createPaymentRequest price,
        g.cars.unlockCarRequest carUID] ∧
      out.2.state = unlockOnly.2.state ∧
      (unlockOnly.1 = none →
        e = .remoteError cause ∧ b.carLocked out.2.state carUID = false) ∧
      (unlockOnly.1 ≠ none → e = .inconsistent cause [.lockedCar carUID])) ∧
    (pay.1.err = none → ∃ cause, rent.1.err = some cause ∧
      (∃ forward, out.2.sent
        = g.cars.lockCarRequest carUID :: g.payments.createPaymentRequest price ::
          (forward ++
            [g.payments.setPaymentStatusRequest pay.1.res.PaymentUID PaymentStatusCanceled,
              g.cars.unlockCarRequest carUID])) ∧
      out.2.state = unlock.2.state ∧
      (cancel.1.err = none → unlock.1 = none →
        e = .remoteError cause ∧ b.carLocked out.2.state carUID = false) ∧
      (cancel.1.err ≠ none → unlock.1 = none →
        e = .inconsistent cause [.payment pay.1.res.PaymentUID] ∧
        b.carLocked out.2.state carUID = false) ∧
      (cancel.1.err = none → unlock.1 ≠ none →
        e = .inconsistent cause [.lockedCar carUID]) ∧
      (cancel.1.err ≠ none → unlock.1 ≠ none →
        e = .inconsistent cause [.payment pay.1.res.PaymentUID, .lockedCar carUID])) ∧
    (b.carLocked out.2.state carUID = true →
      ∃ cause orphans, e = .inconsistent cause orphans ∧ Orphan.lockedCar carUID ∈ orphans) := by
  intro lock price pay rent cancel unlock unlockOnly out
  obtain ⟨hL, hF⟩ := LockCar_success_inv g.cars g.carCodec (b.reply ⟨start, []⟩) carUID hlock
  have hL2 : lock.1.err = none := hL
  have hF2 : lock.1.found = true := hF
  have hS2 : lock.1.success = true := hlock
  have hfail2 : out.1 = .error e := hfail
  refine ⟨⟨rfl, rfl, rfl, rfl, rfl, rfl⟩, ?_⟩
  cases hP : pay.1.err with
  | some perr =>
    have hout : out = g.abort b perr [.unlockCar carUID] pay.2 := by
      simp only [out, Gateway.CreateRentalSaga]
      simp only [lock, pay, price] at hL2 hF2 hS2 hP
      simp [hL2, hF2, hS2, hP]
    obtain ⟨hrun, hnil, hsome⟩ := g.abort_unlock b perr carUID pay.2
    have hrun2 : out.2 = unlockOnly.2 := by rw [hout]; exact hrun
    have hcases : (unlockOnly.1 = none →
          e = .remoteError perr ∧ b.carLocked out.2.state carUID = false) ∧
        (unlockOnly.1 ≠ none → e = .inconsistent perr [.lockedCar carUID]) := by
      constructor
      · intro hu
        have h1 := hnil hu
        rw [← hout, hfail2] at h1
        injection h1 with h1
        refine ⟨h1, ?_⟩
        rw [hrun2]
        exact g.unlockCar_free b carUID pay.2 hunlock hu
      · intro hu
        have h1 := hsome hu
        rw [← hout, hfail2] at h1
        injection h1 with h1
    refine ⟨?_, ?_, ?_⟩
    · intro cause hc
      injection hc with hc
      subst hc
      refine ⟨?_, by rw [hrun2], hcases⟩
      rw [hrun2]
      rfl
    · intro h
      simp at h
    · intro hlocked
      by_cases hu : unlockOnly.1 = none
      · have hfree := (hcases.1 hu).2
        rw [hfree] at hlocked
        simp at hlocked
      · exact ⟨perr, [.lockedCar carUID], hcases.2 hu, by simp⟩
  | none =>
    cases hR : rent.1.err with
    | none =>
      exfalso
      simp only [out, Gateway.CreateRentalSaga] at hfail2
      simp only [lock, pay, price, rent] at hL2 hF2 hS2 hP hR
      simp [hL2, hF2, hS2, hP, hR] at hfail2
    | some rerr =>
      have hout : out = g.abort b rerr
          [.cancelPayment pay.1.res.PaymentUID, .unlockCar carUID] rent.2 := by
        simp only [out, Gateway.CreateRentalSaga]
        simp only [lock, pay, price, rent] at hL2 hF2 hS2 hP hR
        simp [hL2, hF2, hS2, hP, hR]
      obtain ⟨hrun, hnn, hsn, hns, hss⟩ :=
        g.abort_cancel_unlock b rerr pay.1.res.PaymentUID carUID rent.2
      have hrun2 : out.2 = unlock.2 := by rw [hout]; exact hrun
      have hres : ∀ r, (g.abort b rerr
            [.cancelPayment pay.1.res.PaymentUID, .unlockCar carUID] rent.2).1 = .error r →
          e = r := by
        intro r hr
        rw [← hout, hfail2] at hr
        injection hr
      have hfree : unlock.1 = none → b.carLocked out.2.state carUID = false := by
        intro hu
        rw [hrun2]
        exact g.unlockCar_free b carUID cancel.2 hunlock hu
      refine ⟨?_, ?_, ?_⟩
      · intro cause hc
        simp at hc
      · intro _
        refine ⟨rerr, rfl, ?_, by rw [hrun2], ?_, ?_, ?_, ?_⟩
        · obtain ⟨forward, hforward⟩ := g.createRental_sent b
            { Username := username, PaymentUID := pay.1.res.PaymentUID, CarUID := carUID,
              DateFrom := dateFrom, DateTo := dateTo } pay.2
          refine ⟨forward, ?_⟩
          rw [hrun2]
          have hsent : unlock.2.sent = rent.2.sent ++
              [g.payments.setPaymentStatusRequest pay.1.res.PaymentUID PaymentStatusCanceled,
                g.cars.unlockCarRequest carUID] := by
            simp [unlock, cancel, Gateway.unlockCar, Gateway.setPaymentStatus, Backend.deliver]
          rw [hsent, hforward]
          simp [pay, lock, Gateway.createPayment, Gateway.lockCar, Backend.deliver]
        · intro hc hu
          exact ⟨hres _ (hnn hc hu), hfree hu⟩
        · intro hc hu
          exact ⟨hres _ (hsn hc hu), hfree hu⟩
        · intro hc hu
          exact hres _ (hns hc hu)
        · intro hc hu
          exact hres _ (hss hc hu)
      · intro hlocked
        by_cases hu : unlock.1 = none
        · rw [hfree hu] at hlocked
          simp at hlocked
        · by_cases hc : cancel.1.err = none
          · exact ⟨rerr, _, hres _ (hns hc hu), by simp⟩
          · exact ⟨rerr, _, hres _ (hss hc hu), by simp⟩

/-- The scripted services honour the unlock contract: after a 200 reply to
the unlock request of a car, that car is not locked. -/
theorem scriptedBackend_unlock (cars : CarsAPI) (carUID : String) (uid : String) (st : Scripted)
    (resp : Response)
    (hreply : ((scriptedBackend cars carUID).handle (cars.unlockCarRequest uid) st).1 = .ok resp)
    (h200 : resp.StatusCode = 200) :
    (scriptedBackend cars carUID).carLocked
      ((scriptedBackend cars carUID).handle (cars.unlockCarRequest uid) st).2 uid = false := by
  obtain ⟨locked, replies⟩ := st
  by_cases huid : uid = carUID
  · subst huid
    cases replies with
    | nil => simp [scriptedBackend] at hreply
    | cons first rest =>
      cases first with
      | error err => simp [scriptedBackend] at hreply
      | ok r =>
        by_cases hr : r.StatusCode = 200
        · simp [scriptedBackend, hr]
        · have hresp : r = resp := by simpa [scriptedBackend, hr] using hreply
          exact absurd (hresp ▸ h200) hr
  · simp [scriptedBackend, huid]

/-- C9 on two concrete runs in which the lock and the payment succeed and the
rental creation is answered 500.  In scenario A of the specification both
compensations are answered 200: the caller receives RemoteError and the car
ends unlocked.  When the cancelation is answered 500 and the unlock 200, the
caller receives Inconsistent naming the payment, and the car ends unlocked. -/
theorem CreateRentalSaga_no_orphan_lock_witness :
    ((sampleGateway.CreateRentalSaga (scriptedBackend ⟨"http://cars"⟩ "c-1") "alice" "c-1"
          ⟨1⟩ ⟨2⟩
          ⟨false, [.ok ⟨200, "c-1"⟩, .ok ⟨200, "p-1"⟩, .ok ⟨500, "boom"⟩, .ok ⟨200, ""⟩,
            .ok ⟨200, ""⟩]⟩).1 = .error (.remoteError ⟨"boom"⟩) ∧
      (scriptedBackend ⟨"http://cars"⟩ "c-1").carLocked
        (sampleGateway.CreateRentalSaga (scriptedBackend ⟨"http://cars"⟩ "c-1") "alice" "c-1"
          ⟨1⟩ ⟨2⟩
          ⟨false, [.ok ⟨200, "c-1"⟩, .ok ⟨200, "p-1"⟩, .ok ⟨500, "boom"⟩, .ok ⟨200, ""⟩,
            .ok ⟨200, ""⟩]⟩).2.state "c-1" = false) ∧
    ((sampleGateway.CreateRentalSaga (scriptedBackend ⟨"http://cars"⟩ "c-1") "alice" "c-1"
          ⟨1⟩ ⟨2⟩
          ⟨false, [.ok ⟨200, "c-1"⟩, .ok ⟨200, "p-1"⟩, .ok ⟨500, "boom"⟩, .ok ⟨500, "down"⟩,
            .ok ⟨200, ""⟩]⟩).1 = .error (.inconsistent ⟨"boom"⟩ [.payment "p-1"]) ∧
      (scriptedBackend ⟨"http://cars"⟩ "c-1").carLocked
        (sampleGateway.CreateRentalSaga (scriptedBackend ⟨"http://cars"⟩ "c-1") "alice" "c-1"
          ⟨1⟩ ⟨2⟩
          ⟨false, [.ok ⟨200, "c-1"⟩, .ok ⟨200, "p-1"⟩, .ok ⟨500, "boom"⟩, .ok ⟨500, "down"⟩,
            .ok ⟨200, ""⟩]⟩).2.state "c-1" = false) := by
  have hfailA : (sampleGateway.CreateRentalSaga (scriptedBackend ⟨"http://cars"⟩ "c-1") "alice"
      "c-1" ⟨1⟩ ⟨2⟩
      ⟨false, [.ok ⟨200, "c-1"⟩, .ok ⟨200, "p-1"⟩, .ok ⟨500, "boom"⟩, .ok ⟨200, ""⟩,
        .ok ⟨200, ""⟩]⟩).1 = .error (.remoteError ⟨"boom"⟩) := by rfl
  have keyA := CreateRentalSaga_no_orphan_lock sampleGateway
    (scriptedBackend ⟨"http://cars"⟩ "c-1") "alice" "c-1" ⟨1⟩ ⟨2⟩
    ⟨false, [.ok ⟨200, "c-1"⟩, .ok ⟨200, "p-1"⟩, .ok ⟨500, "boom"⟩, .ok ⟨200, ""⟩,
      .ok ⟨200, ""⟩]⟩ (.remoteError ⟨"boom"⟩)
    (fun uid st resp => scriptedBackend_unlock ⟨"http://cars"⟩ "c-1" uid st resp)
    (by rfl) hfailA
  have hfailB : (sampleGateway.CreateRentalSaga (scriptedBackend ⟨"http://cars"⟩ "c-1") "alice"
      "c-1" ⟨1⟩ ⟨2⟩
      ⟨false, [.ok ⟨200, "c-1"⟩, .ok ⟨200, "p-1"⟩, .ok ⟨500, "boom"⟩, .ok ⟨500, "down"⟩,
        .ok ⟨200, ""⟩]⟩).1 = .error (.inconsistent ⟨"boom"⟩ [.payment "p-1"]) := by rfl
  have keyB := CreateRentalSaga_no_orphan_lock sampleGateway
    (scriptedBackend ⟨"http://cars"⟩ "c-1") "alice" "c-1" ⟨1⟩ ⟨2⟩
    ⟨false, [.ok ⟨200, "c-1"⟩, .ok ⟨200, "p-1"⟩, .ok ⟨500, "boom"⟩, .ok ⟨500, "down"⟩,
      .ok ⟨200, ""⟩]⟩ (.inconsistent ⟨"boom"⟩ [.payment "p-1"])
    (fun uid st resp => scriptedBackend_unlock ⟨"http://cars"⟩ "c-1" uid st resp)
    (by rfl) hfailB
  obtain ⟨_, _, _, _, hnnA, _, _, _⟩ := keyA.2.2.1 rfl
  obtain ⟨_, _, _, _, _, hsnB, _, _⟩ := keyB.2.2.1 rfl
  exact ⟨⟨hfailA, (hnnA rfl rfl).2⟩, ⟨hfailB, (hsnB (by decide) rfl).2⟩⟩

end DsLab2
